import Mathlib

/-!
Verification of the lfshook level router (a logrus output hook).

The Go source (src/lfshook.go) is shallowly embedded below: the hook
struct becomes a Lean structure, Go maps become association lists
(with an `Option` wrapper so a nil map is distinguishable from an
empty one), external I/O is modelled by an environment of result
functions plus an explicit effect trace, and a Go panic is modelled
by `GoResult.panicked`.
-/

namespace LFShook

/-- The logrus severity levels (logrus.Level). -/
inductive Level where
  | PanicLevel
  | FatalLevel
  | ErrorLevel
  | WarnLevel
  | InfoLevel
  | DebugLevel
  | TraceLevel
  deriving DecidableEq, Repr

/-- logrus.AllLevels: the complete fixed list of severities. -/
def AllLevels : List Level :=
  [.PanicLevel, .FatalLevel, .ErrorLevel, .WarnLevel, .InfoLevel, .DebugLevel, .TraceLevel]

/-- Go `error` values are modelled as strings. -/
abbrev Err := String

/-- A formatted byte sequence. -/
abbrev Bytes := List Nat

/-- A logrus.Entry: only the level and the payload the formatter reads. -/
structure Entry where
  level : Level
  message : String

/-- A logrus.Formatter: either a *logrus.TextFormatter carrying its
DisableColors flag, or some other formatter kind.  The render function of
a text formatter receives the current DisableColors flag. -/
inductive Formatter where
  | textFormatter (disableColors : Bool) (render : Bool → Entry → Except Err Bytes)
  | custom (render : Entry → Except Err Bytes)

/-- Formatter.Format: render an entry to bytes, fallibly. -/
def Formatter.format : Formatter → Entry → Except Err Bytes
  | .textFormatter dc r, e => r dc e
  | .custom r, e => r e

/-- The rendering behaviour of logrus's text formatter (external library
code, not part of this repository); its details are irrelevant to every
claim, only totality matters. -/
def textRender : Bool → Entry → Except Err Bytes :=
  fun _ e => Except.ok (e.message.data.map Char.toNat)

/-- `var defaultFormatter = &logrus.TextFormatter{DisableColors: true}` -/
def defaultFormatter : Formatter := .textFormatter true textRender

/-- io.Writer values are identified by a numeric handle. -/
abbrev WriterId := Nat

/-- `type PathMap map[logrus.Level]string` (as an association list). -/
abbrev PathMap := List (Level × String)

/-- `type WriterMap map[logrus.Level]io.Writer` (as an association list). -/
abbrev WriterMap := List (Level × WriterId)

/-- The lfsHook struct.  A nil Go map is `none`; a nil formatter
interface is `none`. -/
structure LfsHook where
  paths : Option PathMap
  writers : Option WriterMap
  levels : List Level
  formatter : Option Formatter
  defaultPath : String
  defaultWriter : WriterId
  hasDefaultPath : Bool
  hasDefaultWriter : Bool

/-- Observable external actions performed by a Fire call. -/
inductive Effect where
  | writeToWriter (w : WriterId) (msg : Bytes)
  | mkdirAll (dir : String)
  | openFile (path : String)
  | appendToFile (path : String) (msg : Bytes)
  | closeFile (path : String)
  | diagnostic (s : String)
  deriving DecidableEq, Repr

/-- Results of the fallible external operations: the error an io.Writer's
Write returns, whether os.OpenFile fails, and the error the file
descriptor's Write returns (which the code discards). -/
structure Env where
  writerWriteErr : WriterId → Bytes → Option Err
  openErr : String → Option Err
  fileWriteErr : String → Bytes → Option Err

/-- A Go computation: either a value or a runtime panic. -/
inductive GoResult (α : Type) where
  | ok (val : α)
  | panicked (msg : String)
  deriving DecidableEq, Repr

/-- filepath.Dir, restricted to slash-separated paths: everything before
the last slash, or "." when the path has no slash. -/
def dirOf (path : String) : String :=
  match (path.data.reverse.dropWhile (fun c => c ≠ '/')) with
  | [] => "."
  | _ :: rest => ⟨rest.reverse⟩

/-- `func NewHook(levelMap interface\x7b\x7d, userFormatter logrus.Formatter)`:
the dynamic type of the first argument. -/
inductive LevelMapArg where
  | nilArg
  | pathMap (m : PathMap)
  | writerMap (m : WriterMap)
  | other (typeName : String)

/-- NewHook (src/lfshook.go lines 42-74). -/
def NewHook (levelMap : LevelMapArg) (userFormatter : Option Formatter) : GoResult LfsHook :=
  let formatter : Option Formatter :=
    match userFormatter with
    | some f => some f
    | none => some defaultFormatter
  let base : LfsHook :=
    { paths := none
      writers := none
      levels := []
      formatter := formatter
      defaultPath := ""
      defaultWriter := 0
      hasDefaultPath := false
      hasDefaultWriter := false }
  match levelMap with
  | .nilArg => .ok base
  | .pathMap m => .ok { base with paths := some m, levels := m.map Prod.fst }
  | .writerMap m => .ok { base with writers := some m, levels := m.map Prod.fst }
  | .other ty => .panicked ("unsupported level map type: " ++ ty)

/-- SetFormatter (lines 77-85): store the formatter; if it is a
*logrus.TextFormatter, set its DisableColors field to true in place. -/
def SetFormatter (hook : LfsHook) (formatter : Option Formatter) : LfsHook :=
  match formatter with
  | some (.textFormatter _ r) => { hook with formatter := some (.textFormatter true r) }
  | f => { hook with formatter := f }

/-- SetDefaultPath (lines 88-91). -/
def SetDefaultPath (hook : LfsHook) (defaultPath : String) : LfsHook :=
  { hook with defaultPath := defaultPath, hasDefaultPath := true }

/-- SetDefaultWriter (lines 94-97). -/
def SetDefaultWriter (hook : LfsHook) (defaultWriter : WriterId) : LfsHook :=
  { hook with defaultWriter := defaultWriter, hasDefaultWriter := true }

/-- The lookup-with-default block of ioWrite (lines 123-129): a lookup in
a nil map reports not-found. -/
def resolveWriter (hook : LfsHook) (lvl : Level) : Option WriterId :=
  match (hook.writers.getD []).lookup lvl with
  | some w => some w
  | none => if hook.hasDefaultWriter then some hook.defaultWriter else none

/-- The lookup-with-default block of fileWrite (lines 155-161). -/
def resolvePath (hook : LfsHook) (lvl : Level) : Option String :=
  match (hook.paths.getD []).lookup lvl with
  | some p => some p
  | none => if hook.hasDefaultPath then some hook.defaultPath else none

/-- ioWrite (lines 112-140).  Calling Format on a nil formatter
interface is a nil-pointer dereference, i.e. a panic. -/
def ioWrite (hook : LfsHook) (entry : Entry) (env : Env) : GoResult (Option Err × List Effect) :=
  match resolveWriter hook entry.level with
  | none => .ok (none, [])
  | some w =>
    match hook.formatter with
    | none => .panicked "runtime error: invalid memory address or nil pointer dereference"
    | some f =>
      match f.format entry with
      | .error e =>
          .ok (some e, [.diagnostic ("failed to generate string for entry: " ++ e)])
      | .ok msg =>
          .ok (env.writerWriteErr w msg, [.writeToWriter w msg])

/-- fileWrite (lines 143-182).  MkdirAll's error is not checked; the
file-descriptor Write's error is discarded and nil is returned. -/
def fileWrite (hook : LfsHook) (entry : Entry) (env : Env) : GoResult (Option Err × List Effect) :=
  match resolvePath hook entry.level with
  | none => .ok (none, [])
  | some path =>
    match env.openErr path with
    | some e =>
        .ok (some e, [.mkdirAll (dirOf path), .openFile path,
          .diagnostic ("failed to open logfile: " ++ path ++ " " ++ e)])
    | none =>
      match hook.formatter with
      | none => .panicked "runtime error: invalid memory address or nil pointer dereference"
      | some f =>
        match f.format entry with
        | .error e =>
            .ok (some e, [.mkdirAll (dirOf path), .openFile path,
              .diagnostic ("failed to generate string for entry: " ++ e), .closeFile path])
        | .ok msg =>
            .ok (none, [.mkdirAll (dirOf path), .openFile path,
              .appendToFile path msg, .closeFile path])

/-- Fire (lines 101-109). -/
def Fire (hook : LfsHook) (entry : Entry) (env : Env) : GoResult (Option Err × List Effect) :=
  if hook.writers.isSome || hook.hasDefaultWriter then
    ioWrite hook entry env
  else if hook.paths.isSome || hook.hasDefaultPath then
    fileWrite hook entry env
  else
    .ok (none, [])

/-- Levels (lines 185-187): always the full fixed list. -/
def Levels (_hook : LfsHook) : List Level := AllLevels

/-! Concrete sample data used by the witness theorems. -/

/-- A formatter of the non-text kind that always succeeds. -/
def okFormatter : Formatter := .custom (fun e => Except.ok (e.message.data.map Char.toNat))

/-- A formatter of the non-text kind that always fails. -/
def failFormatter : Formatter := .custom (fun _ => Except.error "format failure")

/-- A text formatter whose caller left colors enabled. -/
def colorFormatter : Formatter := .textFormatter false textRender

/-- An environment in which every external operation succeeds. -/
def envOK : Env :=
  { writerWriteErr := fun _ _ => none
    openErr := fun _ => none
    fileWriteErr := fun _ _ => none }

/-- An environment in which every byte-write reports an error. -/
def envWriteFail : Env :=
  { writerWriteErr := fun _ _ => some "stream write failure"
    openErr := fun _ => none
    fileWriteErr := fun _ _ => some "file write failure" }

/-- An environment in which every file open fails. -/
def envOpenFail : Env :=
  { writerWriteErr := fun _ _ => none
    openErr := fun _ => some "open failure"
    fileWriteErr := fun _ _ => none }

/-- A sample Info-level entry. -/
def entryInfo : Entry := { level := .InfoLevel, message := "hello" }

/-- A sample Debug-level entry. -/
def entryDebug : Entry := { level := .DebugLevel, message := "dbg" }

/-- The formatted bytes of entryInfo under okFormatter. -/
def msgHello : Bytes := [104, 101, 108, 108, 111]

/-- A writer table routing Info to writer 1. -/
def sampleWriterMap : WriterMap := [(.InfoLevel, 1)]

/-- A path table routing Info to /tmp/info.log. -/
def samplePathMap : PathMap := [(.InfoLevel, "/tmp/info.log")]

/-- A hook in stream mode with no defaults. -/
def hookWriters : LfsHook :=
  { paths := none
    writers := some sampleWriterMap
    levels := [.InfoLevel]
    formatter := some okFormatter
    defaultPath := ""
    defaultWriter := 0
    hasDefaultPath := false
    hasDefaultWriter := false }

/-- A hook in stream mode that also has a default writer configured. -/
def hookWritersDefault : LfsHook :=
  { hookWriters with defaultWriter := 9, hasDefaultWriter := true }

/-- A hook in file mode with no defaults. -/
def hookPaths : LfsHook :=
  { paths := some samplePathMap
    writers := none
    levels := [.InfoLevel]
    formatter := some okFormatter
    defaultPath := ""
    defaultWriter := 0
    hasDefaultPath := false
    hasDefaultWriter := false }

/-- A misconfigured hook holding both a writer table and a path table. -/
def hookBoth : LfsHook := { hookWriters with paths := some samplePathMap }

/-- A stream-mode hook whose formatter always fails. -/
def hookFail : LfsHook := { hookWriters with formatter := some failFormatter }

/-- A stream-mode hook with a nil formatter. -/
def hookWritersNil : LfsHook := { hookWriters with formatter := none }

/-- The hook value NewHook builds from samplePathMap and a nil formatter. -/
def hookNewPath : LfsHook :=
  { paths := some samplePathMap
    writers := none
    levels := [.InfoLevel]
    formatter := some defaultFormatter
    defaultPath := ""
    defaultWriter := 0
    hasDefaultPath := false
    hasDefaultWriter := false }

/-- The hook value NewHook builds from a nil table and colorFormatter. -/
def hookNewColor : LfsHook :=
  { paths := none
    writers := none
    levels := []
    formatter := some colorFormatter
    defaultPath := ""
    defaultWriter := 0
    hasDefaultPath := false
    hasDefaultWriter := false }

/-! Helper lemmas shared by several claims. -/

/-- A resolved writer implies the writer-mode guard of Fire holds. -/
theorem resolveWriter_guard (hook : LfsHook) (lvl : Level) (w : WriterId)
    (h : resolveWriter hook lvl = some w) :
    (hook.writers.isSome || hook.hasDefaultWriter) = true := by
  cases hw : hook.writers with
  | some m => simp [hw]
  | none =>
    simp only [resolveWriter, hw, Option.getD_none, List.lookup_nil] at h
    by_cases hd : hook.hasDefaultWriter = true
    · simp [hd]
    · simp [hd] at h

/-- A resolved path implies the path-mode guard of Fire holds. -/
theorem resolvePath_guard (hook : LfsHook) (lvl : Level) (p : String)
    (h : resolvePath hook lvl = some p) :
    (hook.paths.isSome || hook.hasDefaultPath) = true := by
  cases hp : hook.paths with
  | some m => simp [hp]
  | none =>
    simp only [resolvePath, hp, Option.getD_none, List.lookup_nil] at h
    by_cases hd : hook.hasDefaultPath = true
    · simp [hd]
    · simp [hd] at h

/-- An error returned by fileWrite can only be a file-open failure or a
formatter failure on the resolved path. -/
theorem fileWrite_error_source (hook : LfsHook) (entry : Entry) (env : Env)
    (e : Err) (effs : List Effect)
    (hfw : fileWrite hook entry env = .ok (some e, effs)) :
    ∃ p, resolvePath hook entry.level = some p ∧
      (env.openErr p = some e ∨
        ∃ f, hook.formatter = some f ∧ f.format entry = Except.error e) := by
  unfold fileWrite at hfw
  rcases hr : resolvePath hook entry.level with _ | p
  · simp only [hr] at hfw
    simp at hfw
  · simp only [hr] at hfw
    refine ⟨p, rfl, ?_⟩
    rcases ho : env.openErr p with _ | e0
    · simp only [ho] at hfw
      rcases hfmt : hook.formatter with _ | f
      · simp only [hfmt] at hfw
        simp at hfw
      · simp only [hfmt] at hfw
        rcases hfe : f.format entry with e1 | msg
        · simp only [hfe] at hfw
          simp at hfw
          exact Or.inr ⟨f, by simp [hfmt], by simp [hfe, hfw.1]⟩
        · simp only [hfe] at hfw
          simp at hfw
    · simp only [ho] at hfw
      simp at hfw
      exact Or.inl (by simp [ho, hfw.1])

/-- On a formatter failure, no Fire execution path reaches a byte-write:
every effect list it can produce is free of stream writes and file
appends. -/
theorem fire_format_error_no_write (hook : LfsHook) (entry : Entry) (env : Env)
    (f : Formatter) (e : Err) (res : Option Err) (effs : List Effect)
    (hf : hook.formatter = some f) (he : f.format entry = Except.error e)
    (hfire : Fire hook entry env = .ok (res, effs)) :
    (∀ w m, Effect.writeToWriter w m ∉ effs)
      ∧ (∀ p m, Effect.appendToFile p m ∉ effs) := by
  unfold Fire at hfire
  by_cases hgw : (hook.writers.isSome || hook.hasDefaultWriter) = true
  · rw [if_pos hgw] at hfire
    unfold ioWrite at hfire
    rcases hr : resolveWriter hook entry.level with _ | w
    · simp only [hr] at hfire
      simp at hfire
      obtain ⟨-, h2⟩ := hfire
      subst h2
      simp
    · simp only [hr, hf, he] at hfire
      simp at hfire
      obtain ⟨-, h2⟩ := hfire
      subst h2
      simp
  · rw [if_neg hgw] at hfire
    by_cases hgp : (hook.paths.isSome || hook.hasDefaultPath) = true
    · rw [if_pos hgp] at hfire
      unfold fileWrite at hfire
      rcases hr : resolvePath hook entry.level with _ | p
      · simp only [hr] at hfire
        simp at hfire
        obtain ⟨-, h2⟩ := hfire
        subst h2
        simp
      · simp only [hr] at hfire
        rcases ho : env.openErr p with _ | e0
        · simp only [ho, hf, he] at hfire
          simp at hfire
          obtain ⟨-, h2⟩ := hfire
          subst h2
          simp
        · simp only [ho] at hfire
          simp at hfire
          obtain ⟨-, h2⟩ := hfire
          subst h2
          simp
    · rw [if_neg hgp] at hfire
      simp at hfire
      obtain ⟨-, h2⟩ := hfire
      subst h2
      simp

/-- C3: when the entry's level is mapped in the active routing table, the
bytes go to the mapped destination and never to the default, even when a
default of the same kind is configured; the default receives the bytes
only when the level is absent from the table. -/
theorem fire_table_beats_default (hook : LfsHook) (entry : Entry) (env : Env)
    (f : Formatter) (msg : Bytes)
    (hf : hook.formatter = some f) (hmsg : f.format entry = Except.ok msg) :
    (∀ m w, hook.writers = some m → m.lookup entry.level = some w →
      Fire hook entry env
        = .ok (env.writerWriteErr w msg, [.writeToWriter w msg]))
  ∧ (∀ m, hook.writers = some m → m.lookup entry.level = none →
      hook.hasDefaultWriter = true →
      Fire hook entry env
        = .ok (env.writerWriteErr hook.defaultWriter msg,
               [.writeToWriter hook.defaultWriter msg]))
  ∧ (∀ m p, hook.writers = none → hook.hasDefaultWriter = false →
      hook.paths = some m → m.lookup entry.level = some p →
      env.openErr p = none →
      Fire hook entry env
        = .ok (none, [.mkdirAll (dirOf p), .openFile p,
                      .appendToFile p msg, .closeFile p]))
  ∧ (∀ m, hook.writers = none → hook.hasDefaultWriter = false →
      hook.paths = some m → m.lookup entry.level = none →
      hook.hasDefaultPath = true →
      env.openErr hook.defaultPath = none →
      Fire hook entry env
        = .ok (none, [.mkdirAll (dirOf hook.defaultPath), .openFile hook.defaultPath,
                      .appendToFile hook.defaultPath msg, .closeFile hook.defaultPath])) := by
  refine ⟨?_, ?_, ?_, ?_⟩
  · intro m w hm hlk
    simp [Fire, hm, ioWrite, resolveWriter, hlk, hf, hmsg]
  · intro m hm hlk hdw
    simp [Fire, hm, ioWrite, resolveWriter, hlk, hdw, hf, hmsg]
  · intro m p hw hdw hp hlk hopen
    simp [Fire, hw, hdw, hp, fileWrite, resolvePath, hlk, hopen, hf, hmsg]
  · intro m hw hdw hp hlk hdp hopen
    simp [Fire, hw, hdw, hp, fileWrite, resolvePath, hlk, hdp, hopen, hf, hmsg]

/-- Witness for C3: with Info mapped to writer 1 and a default writer 9
configured, an Info entry is written to writer 1 only. -/
theorem fire_table_beats_default_witness :
    Fire hookWritersDefault entryInfo envOK
      = .ok (envOK.writerWriteErr 1 msgHello, [.writeToWriter 1 msgHello]) :=
  (fire_table_beats_default hookWritersDefault entryInfo envOK okFormatter msgHello
    rfl rfl).1 sampleWriterMap 1 rfl rfl

/-- C4: in stream mode the error of the underlying byte-write is returned
by Fire as is; in file mode the error of writing to the opened file is
discarded and Fire returns success, so only open failures and formatter
failures can surface as Fire's error in file mode. -/
theorem write_error_policy (hook : LfsHook) (entry : Entry) (env : Env) :
    (∀ f msg w, hook.formatter = some f → f.format entry = Except.ok msg →
      resolveWriter hook entry.level = some w →
      Fire hook entry env = .ok (env.writerWriteErr w msg, [.writeToWriter w msg]))
  ∧ (∀ f msg p, hook.formatter = some f → f.format entry = Except.ok msg →
      hook.writers = none → hook.hasDefaultWriter = false →
      resolvePath hook entry.level = some p → env.openErr p = none →
      Fire hook entry env
        = .ok (none, [.mkdirAll (dirOf p), .openFile p,
                      .appendToFile p msg, .closeFile p]))
  ∧ (∀ e effs, hook.writers = none → hook.hasDefaultWriter = false →
      Fire hook entry env = .ok (some e, effs) →
      ∃ p, resolvePath hook entry.level = some p ∧
        (env.openErr p = some e ∨
          ∃ f, hook.formatter = some f ∧ f.format entry = Except.error e)) := by
  refine ⟨?_, ?_, ?_⟩
  · intro f msg w hf hmsg hw
    have hg := resolveWriter_guard hook entry.level w hw
    simp [Fire, hg, ioWrite, hw, hf, hmsg]
  · intro f msg p hf hmsg hwn hdw hp hopen
    have hg := resolvePath_guard hook entry.level p hp
    simp [Fire, hwn, hdw, hg, fileWrite, hp, hopen, hf, hmsg]
  · intro e effs hwn hdw hfire
    unfold Fire at hfire
    rw [if_neg (by simp [hwn, hdw])] at hfire
    by_cases hgp : (hook.paths.isSome || hook.hasDefaultPath) = true
    · rw [if_pos hgp] at hfire
      exact fileWrite_error_source hook entry env e effs hfire
    · rw [if_neg hgp] at hfire
      simp at hfire

/-- Witness for C4: with every stream write failing, Fire on the
writer-table hook returns that write failure. -/
theorem write_error_policy_witness :
    Fire hookWriters entryInfo envWriteFail
      = .ok (envWriteFail.writerWriteErr 1 msgHello, [.writeToWriter 1 msgHello]) :=
  (write_error_policy hookWriters entryInfo envWriteFail).1
    okFormatter msgHello 1 rfl rfl rfl

/-- C5: when the level resolves to a destination and the formatter fails,
Fire returns that error, reports it on the diagnostic side channel, and
writes no bytes to any destination, in stream mode as well as in file mode
(in file mode the open has already happened, but nothing is appended). -/
theorem formatter_error_policy (hook : LfsHook) (entry : Entry) (env : Env)
    (f : Formatter) (e : Err)
    (hf : hook.formatter = some f) (he : f.format entry = Except.error e) :
    (∀ w, resolveWriter hook entry.level = some w →
      Fire hook entry env
        = .ok (some e, [.diagnostic ("failed to generate string for entry: " ++ e)]))
  ∧ (∀ p, hook.writers = none → hook.hasDefaultWriter = false →
      resolvePath hook entry.level = some p → env.openErr p = none →
      Fire hook entry env
        = .ok (some e, [.mkdirAll (dirOf p), .openFile p,
            .diagnostic ("failed to generate string for entry: " ++ e), .closeFile p]))
  ∧ (∀ res effs, Fire hook entry env = GoResult.ok (res, effs) →
      (∀ w m, Effect.writeToWriter w m ∉ effs)
        ∧ (∀ p m, Effect.appendToFile p m ∉ effs)) := by
  refine ⟨?_, ?_, ?_⟩
  · intro w hw
    have hg := resolveWriter_guard hook entry.level w hw
    simp [Fire, hg, ioWrite, hw, hf, he]
  · intro p hwn hdw hp hopen
    have hg := resolvePath_guard hook entry.level p hp
    simp [Fire, hwn, hdw, hg, fileWrite, hp, hopen, hf, he]
  · intro res effs hfire
    exact fire_format_error_no_write hook entry env f e res effs hf he hfire

/-- Witness for C5: the failing formatter's error is returned in stream
mode and only the diagnostic effect occurs. -/
theorem formatter_error_policy_witness :
    Fire hookFail entryInfo envOK
      = .ok (some "format failure",
          [.diagnostic ("failed to generate string for entry: " ++ "format failure")]) :=
  (formatter_error_policy hookFail entryInfo envOK failFormatter "format failure"
    rfl rfl).1 1 rfl

/-- Counterexample for C10: after SetFormatter(nil) on a path-table hook,
an Info entry resolves to /tmp/info.log, yet when the file open fails Fire
returns the open error without ever dereferencing the nil formatter —
refuting the claim that every Fire call whose level resolves to a
destination dereferences the nil formatter. -/
theorem nil_formatter_cex :
    (SetFormatter hookPaths none).formatter = none
  ∧ resolvePath (SetFormatter hookPaths none) entryInfo.level = some "/tmp/info.log"
  ∧ Fire (SetFormatter hookPaths none) entryInfo envOpenFail
      = GoResult.ok (some "open failure",
          [.mkdirAll "/tmp", .openFile "/tmp/info.log",
           .diagnostic "failed to open logfile: /tmp/info.log open failure"])
  ∧ Fire (SetFormatter hookPaths none) entryInfo envOpenFail
      ≠ GoResult.panicked "runtime error: invalid memory address or nil pointer dereference" :=
  ⟨rfl, rfl, rfl, by decide⟩

/-- C10 (amended): SetFormatter accepts nil and stores it, leaving the
hook with no formatter; Fire then dereferences the nil formatter whenever
it reaches the formatting step — always in stream mode with a resolved
destination, and in file mode with a resolved destination whenever the
file open succeeds (on open failure Fire returns the open error before
formatting) — and Fire never panics when the active formatter is
non-nil. -/
theorem nil_formatter_fire_panics (hook : LfsHook) (entry : Entry) (env : Env) :
    ((SetFormatter hook none).formatter = none)
  ∧ (hook.formatter = none →
      ∀ w, resolveWriter hook entry.level = some w →
      Fire hook entry env
        = .panicked "runtime error: invalid memory address or nil pointer dereference")
  ∧ (hook.formatter = none →
      hook.writers = none → hook.hasDefaultWriter = false →
      ∀ p, resolvePath hook entry.level = some p → env.openErr p = none →
      Fire hook entry env
        = .panicked "runtime error: invalid memory address or nil pointer dereference")
  ∧ (hook.formatter ≠ none → ∀ s, Fire hook entry env ≠ GoResult.panicked s) := by
  refine ⟨rfl, ?_, ?_, ?_⟩
  · intro hf w hw
    have hg := resolveWriter_guard hook entry.level w hw
    simp [Fire, hg, ioWrite, hw, hf]
  · intro hf hwn hdw p hp hopen
    have hg := resolvePath_guard hook entry.level p hp
    simp [Fire, hwn, hdw, hg, fileWrite, hp, hopen, hf]
  · intro hnf s hfire
    obtain ⟨f, hf⟩ := Option.ne_none_iff_exists'.mp hnf
    unfold Fire at hfire
    by_cases hgw : (hook.writers.isSome || hook.hasDefaultWriter) = true
    · rw [if_pos hgw] at hfire
      unfold ioWrite at hfire
      rcases hr : resolveWriter hook entry.level with _ | w
      · simp only [hr] at hfire
        simp at hfire
      · simp only [hr, hf] at hfire
        rcases hfe : f.format entry with e | msg
        · simp only [hfe] at hfire
          simp at hfire
        · simp only [hfe] at hfire
          simp at hfire
    · rw [if_neg hgw] at hfire
      by_cases hgp : (hook.paths.isSome || hook.hasDefaultPath) = true
      · rw [if_pos hgp] at hfire
        unfold fileWrite at hfire
        rcases hr : resolvePath hook entry.level with _ | p
        · simp only [hr] at hfire
          simp at hfire
        · simp only [hr] at hfire
          rcases ho : env.openErr p with _ | e0
          · simp only [ho, hf] at hfire
            rcases hfe : f.format entry with e | msg
            · simp only [hfe] at hfire
              simp at hfire
            · simp only [hfe] at hfire
              simp at hfire
          · simp only [ho] at hfire
            simp at hfire
      · rw [if_neg hgp] at hfire
        simp at hfire

/-- Witness for C10 (amended): a writer-table hook with a nil formatter
panics on an Info entry. -/
theorem nil_formatter_fire_panics_witness :
    Fire hookWritersNil entryInfo envOK
      = .panicked "runtime error: invalid memory address or nil pointer dereference" :=
  (nil_formatter_fire_panics hookWritersNil entryInfo envOK).2.1 rfl 1 rfl

/-- C1: Fire dispatches in a fixed order: with a writer table or a default
writer it takes stream mode (so when both sides are configured, writer mode
wins and the path table is never consulted); otherwise with a path table or
a default path it takes file mode; otherwise it performs no I/O and
returns success. -/
theorem fire_dispatch_order (hook : LfsHook) (entry : Entry) (env : Env) :
    (hook.writers.isSome = true ∨ hook.hasDefaultWriter = true →
      Fire hook entry env = ioWrite hook entry env)
  ∧ (hook.writers = none → hook.hasDefaultWriter = false →
      hook.paths.isSome = true ∨ hook.hasDefaultPath = true →
      Fire hook entry env = fileWrite hook entry env)
  ∧ (hook.writers = none → hook.hasDefaultWriter = false →
      hook.paths = none → hook.hasDefaultPath = false →
      Fire hook entry env = GoResult.ok (none, [])) := by
  refine ⟨?_, ?_, ?_⟩
  · rintro (h | h) <;> simp [Fire, h]
  · rintro hw hdw (h | h) <;> simp [Fire, hw, hdw, h]
  · intro hw hdw hp hdp
    simp [Fire, hw, hdw, hp, hdp]

/-- Witness for C1: on a hook holding both a writer table and a path table,
Fire is the stream-mode write. -/
theorem fire_dispatch_order_witness :
    Fire hookBoth entryInfo envOK = ioWrite hookBoth entryInfo envOK :=
  (fire_dispatch_order hookBoth entryInfo envOK).1 (Or.inl rfl)

/-- C2: when the entry's level is absent from the active routing table and
no default destination of the matching kind is set, Fire performs no write
and returns success, in stream mode as well as in file mode. -/
theorem fire_unresolved_silent_success (hook : LfsHook) (entry : Entry) (env : Env) :
    (∀ m : WriterMap, hook.writers = some m → m.lookup entry.level = none →
      hook.hasDefaultWriter = false →
      Fire hook entry env = GoResult.ok (none, []))
  ∧ (∀ m : PathMap, hook.writers = none → hook.hasDefaultWriter = false →
      hook.paths = some m → m.lookup entry.level = none →
      hook.hasDefaultPath = false →
      Fire hook entry env = GoResult.ok (none, [])) := by
  constructor
  · intro m hm hlk hdw
    simp [Fire, hm, ioWrite, resolveWriter, hlk, hdw]
  · intro m hw hdw hp hlk hdp
    simp [Fire, hw, hdw, hp, fileWrite, resolvePath, hlk, hdp]

/-- Witness for C2: the hook routing only Info to writer 1, fired with a
Debug entry, writes nothing and returns success. -/
theorem fire_unresolved_silent_success_witness :
    Fire hookWriters entryDebug envOK = GoResult.ok (none, []) :=
  (fire_unresolved_silent_success hookWriters entryDebug envOK).1
    sampleWriterMap rfl rfl rfl

/-- C6: SetFormatter stores its argument as the active formatter; when the
argument is a *logrus.TextFormatter it additionally forces DisableColors to
true on it, whatever flag the caller had configured; formatters of any
other kind (and nil) are stored unmodified. -/
theorem setFormatter_behavior (hook : LfsHook) :
    (∀ dc r, (SetFormatter hook (some (.textFormatter dc r))).formatter
        = some (.textFormatter true r))
  ∧ (∀ r, (SetFormatter hook (some (.custom r))).formatter = some (.custom r))
  ∧ (SetFormatter hook none).formatter = none :=
  ⟨fun _ _ => rfl, fun _ => rfl, rfl⟩

/-- C7: NewHook panics exactly on an argument that is neither nil, a
PathMap nor a WriterMap; the three accepted variants yield a hook holding
exactly the supplied table and no other, so every constructed hook has at
most one routing table. -/
theorem newHook_variants :
    (∀ arg uf, (∃ s, NewHook arg uf = .panicked s) ↔ ∃ ty, arg = .other ty)
  ∧ (∀ uf h, NewHook .nilArg uf = .ok h → h.paths = none ∧ h.writers = none)
  ∧ (∀ m uf h, NewHook (.pathMap m) uf = .ok h → h.paths = some m ∧ h.writers = none)
  ∧ (∀ m uf h, NewHook (.writerMap m) uf = .ok h → h.paths = none ∧ h.writers = some m)
  ∧ (∀ arg uf h, NewHook arg uf = .ok h → h.paths = none ∨ h.writers = none) := by
  refine ⟨?_, ?_, ?_, ?_, ?_⟩
  · intro arg uf
    constructor
    · rintro ⟨s, hs⟩
      cases arg <;> simp [NewHook] at hs ⊢
    · rintro ⟨ty, rfl⟩
      exact ⟨"unsupported level map type: " ++ ty, rfl⟩
  · intro uf h hh
    cases hh
    exact ⟨rfl, rfl⟩
  · intro m uf h hh
    cases hh
    exact ⟨rfl, rfl⟩
  · intro m uf h hh
    cases hh
    exact ⟨rfl, rfl⟩
  · intro arg uf h hh
    cases arg <;> simp [NewHook] at hh
    · cases hh; exact Or.inl rfl
    · cases hh; exact Or.inr rfl
    · cases hh; exact Or.inl rfl

/-- Witness for C7: NewHook on samplePathMap returns a hook whose path
table is samplePathMap and whose writer table is nil. -/
theorem newHook_variants_witness :
    NewHook (.pathMap samplePathMap) none = .ok hookNewPath
  ∧ hookNewPath.paths = some samplePathMap ∧ hookNewPath.writers = none :=
  ⟨rfl, newHook_variants.2.2.1 samplePathMap none hookNewPath rfl⟩

/-- C8: Levels always returns the complete fixed list of all known
severity levels, for every hook whatever its tables, and that list
contains every level. -/
theorem levels_full_fixed_set (hook : LfsHook) :
    Levels hook = AllLevels ∧ ∀ l : Level, l ∈ Levels hook := by
  refine ⟨rfl, fun l => ?_⟩
  cases l <;> simp [Levels, AllLevels]

/-- C9: NewHook with a nil formatter installs the default plain-text
formatter, whose DisableColors flag is true; a non-nil formatter is stored
as given, with no color-disabling side effect at construction time. -/
theorem newHook_formatter_defaulting :
    (∀ arg h, NewHook arg none = .ok h →
      h.formatter = some defaultFormatter
        ∧ defaultFormatter = .textFormatter true textRender)
  ∧ (∀ arg f h, NewHook arg (some f) = .ok h → h.formatter = some f) := by
  constructor
  · intro arg h hh
    refine ⟨?_, rfl⟩
    cases arg <;> simp [NewHook] at hh <;> cases hh <;> rfl
  · intro arg f h hh
    cases arg <;> simp [NewHook] at hh <;> cases hh <;> rfl

/-- Witness for C9: a caller-supplied text formatter with colors enabled is
stored as given by NewHook, still with colors enabled. -/
theorem newHook_formatter_defaulting_witness :
    NewHook .nilArg (some colorFormatter) = .ok hookNewColor
  ∧ hookNewColor.formatter = some colorFormatter :=
  ⟨rfl, newHook_formatter_defaulting.2 .nilArg colorFormatter hookNewColor rfl⟩

end LFShook
